import Mathlib

/-!
# go-sepehr: request construction, tracing propagation and error normalization

A shallow embedding of `client.go`.

Modelling conventions.

* A Go `string` is a Lean `String`. The string operations used by the client
  (concatenation, `strings.Join`, `strings.TrimRight` with the ASCII cutset "/",
  and the conversion `string(b)` of a byte slice) act on the UTF-8 text exactly
  as they act on its bytes.
* A nilable Go value (`error`, `*resty.Response`, `[]byte`, the result of a type
  assertion) is an `Option`; `none` is `nil`.
* A value that the client only observes through its methods is the record of what
  those methods return.
* Mutation through a pointer is explicit state passing: a function that mutates
  its argument returns the new value.
-/

namespace gosepehr

/-! ## Values of the surrounding libraries -/

/-- A Go `error` value, observed through its only method `Error()`. -/
structure GoError where
  Error : String
  deriving DecidableEq, Repr

/-- The function `errors.Wrap` of `github.com/pkg/errors` on a non-nil error: the
description of the wrapped error is `message + ": " + err.Error()`. -/
def Wrap (err : GoError) (message : String) : GoError :=
  ⟨message ++ ": " ++ err.Error⟩

/-- The call `fmt.Sprintf("%s: %s", a, b)` on two already rendered operands. -/
def Sprintf2 (a b : String) : String :=
  a ++ ": " ++ b

/-- Modelled from the spec: the error kinds of the unified error (`APIErrType`
is declared outside `client.go`); the spec enumerates `TransportFailure`,
`ClientError`, `ServerError` and `Unknown`. -/
inductive APIErrType where
  | TransportFailure
  | ClientError
  | ServerError
  | Unknown
  deriving DecidableEq, Repr

/-- The unified error `APIError` built by `checkForError`: the three fields the
composite literals of `client.go` name (`ErrType` is the field `Type`, a reserved
word here). A field left out of a literal has Go's zero value. -/
structure APIError where
  Code : Int
  Message : String
  ErrType : APIErrType
  deriving DecidableEq, Repr

/-- The decoded structured error payload `*HTTPErrorResponse`, observed through
the two things `checkForError` asks of it: `NotEmpty()` and the text that
`fmt` renders for the verb `%s`. -/
structure HTTPErrorResponse where
  NotEmpty : Bool
  String : String
  deriving DecidableEq, Repr

/-- A `*resty.Response` as `checkForError` reads it: the status line, the numeric
status code, the raw body (`none` is a nil slice, `some ""` a non-nil slice of
zero bytes) and the result of the type assertion
`resp.Error().(*HTTPErrorResponse)` (`none` when the assertion fails; when it
succeeds the pointer is the non-nil decode target that `SetError` stored). -/
structure Response where
  Status : String
  StatusCode : Int
  Body : Option String
  Error : Option HTTPErrorResponse
  deriving DecidableEq, Repr

/-- The method `IsError` of `resty.Response`: the status code is above 399. -/
def Response.IsError (r : Response) : Bool :=
  decide (r.StatusCode > 399)

/-! ## Error normalization -/

/-- The function `checkForError` of `client.go`. `ParseAPIErrType` is declared
outside `client.go` and is a parameter; `none` as a result is a nil error. -/
def checkForError (ParseAPIErrType : Option GoError → APIErrType)
    (resp : Option Response) (err : Option GoError) (errMessage : String) :
    Option APIError :=
  match err with
  | some e =>
    some { Code := 0
           Message := (Wrap e errMessage).Error
           ErrType := ParseAPIErrType err }
  | none =>
    match resp with
    | none =>
      some { Code := 0
             Message := "empty response"
             ErrType := ParseAPIErrType err }
    | some resp =>
      if resp.IsError then
        let msg : String :=
          match resp.Error with
          | some e =>
            if e.NotEmpty then Sprintf2 resp.Status e.String
            else
              match resp.Body with
              | some body => Sprintf2 resp.Status body
              | none => resp.Status
          | none =>
            match resp.Body with
            | some body => Sprintf2 resp.Status body
            | none => resp.Status
        some { Code := resp.StatusCode
               Message := msg
               ErrType := ParseAPIErrType err }
      else
        none

/-! ## URL construction -/

/-- The constant `urlSeparator`. -/
def urlSeparator : String := "/"

/-- The function `strings.Join` of the Go standard library. -/
def Join : List String → String → String
  | [], _ => ""
  | [a], _ => a
  | a :: b :: rest, sep => a ++ sep ++ Join (b :: rest) sep

/-- The function `strings.TrimRight` of the Go standard library: the string
without its trailing characters that occur in `cutset`. -/
def TrimRight (s cutset : String) : String :=
  ⟨s.data.rdropWhile (fun c => decide (c ∈ cutset.data))⟩

/-- The function `makeURL` of `client.go`. -/
def makeURL (path : List String) : String :=
  Join path urlSeparator

/-! ## Requests, tracing and the transport -/

/-- An `http.Header`: the values stored under each key. -/
abbrev Header := List (String × List String)

/-- The function `validHeaderFieldByte` of `net/textproto`: the characters of an
HTTP token, that is ASCII letters, digits and the listed punctuation (39 is the
single quote, 96 the grave accent). -/
def validHeaderFieldByte (c : Char) : Bool :=
  c.isAlphanum ||
    decide (c ∈ ['!', '#', '$', '%', '&', Char.ofNat 39, '*', '+', '-', '.', '^', '_',
      Char.ofNat 96, '|', '~'])

/-- The casing loop of `canonicalMIMEHeaderKey` of `net/textproto`: a letter at the
start or after "-" becomes upper case, every other letter lower case. -/
def canonicalChars : Bool → List Char → List Char
  | _, [] => []
  | upper, c :: cs =>
    let c :=
      if upper && c.isLower then c.toUpper
      else if !upper && c.isUpper then c.toLower
      else c
    c :: canonicalChars (c == '-') cs

/-- The function `CanonicalMIMEHeaderKey` of `net/textproto`: a key made of token
characters only is put in canonical case, any other key is returned unchanged. -/
def CanonicalMIMEHeaderKey (s : String) : String :=
  if s.data.all validHeaderFieldByte then ⟨canonicalChars true s.data⟩ else s

/-- The method `Set` of `http.Header`: the canonical form of the key holds the
single value `v`. -/
def Header.Set (h : Header) (k v : String) : Header :=
  let k := CanonicalMIMEHeaderKey k
  (k, [v]) :: h.filter (fun p => decide (p.1 ≠ k))

/-- An `opentracing.SpanContext`, observed through its baggage items. -/
structure SpanContext where
  baggage : List (String × String)

/-- An `opentracing.Span`, observed through its method `Context()`. -/
structure Span where
  Context : SpanContext

/-- An `opentracing.Tracer`, observed through `Inject` with the format
`opentracing.HTTPHeaders` and an `HTTPHeadersCarrier`: the carrier shares the
header map of the request, so `Inject` returns the map as it leaves it together
with its error result. -/
structure Tracer where
  Inject : SpanContext → Header → Header × Option GoError

/-- A `context.Context`, observed through the two lookups of
`injectTracingHeaders`: `opentracing.SpanFromContext(ctx)` and the type assertion
`ctx.Value(tracerContextKey).(opentracing.Tracer)` (`none` when the assertion
fails or yields a nil tracer). -/
structure Context where
  span : Option Span
  tracer : Option Tracer

/-- A `*resty.Request`: target URL, method, auth token, headers, body, the bound
context, and whether a decode target was set with `SetResult` and `SetError`. -/
structure Request where
  URL : String
  Method : String
  Token : String
  Header : Header
  Body : Option String
  ctx : Option Context
  Result : Bool
  Error : Bool

/-- The method `SetContext` of `resty.Request`. -/
def Request.SetContext (r : Request) (ctx : Context) : Request :=
  { r with ctx := some ctx }

/-- The method `SetError` of `resty.Request`. -/
def Request.SetError (r : Request) : Request :=
  { r with Error := true }

/-- The method `SetResult` of `resty.Request`. -/
def Request.SetResult (r : Request) : Request :=
  { r with Result := true }

/-- The method `SetBody` of `resty.Request`. -/
def Request.SetBody (r : Request) (body : String) : Request :=
  { r with Body := some body }

/-- The method `SetHeader` of `resty.Request`. -/
def Request.SetHeader (r : Request) (k v : String) : Request :=
  { r with Header := r.Header.Set k v }

/-- The method `SetAuthToken` of `resty.Request`. -/
def Request.SetAuthToken (r : Request) (token : String) : Request :=
  { r with Token := token }

/-- What one executed request leaves behind: the two results of `Post` and the
value decoded into the `SetResult` target. -/
structure Outcome where
  response : Option Response
  err : Option GoError
  result : String

/-- A `*resty.Client`, the injected transport: what executing a request yields. -/
structure Client where
  Execute : Request → Outcome

/-- The method `R` of `resty.Client`: a fresh request. -/
def Client.R (_c : Client) : Request :=
  { URL := "", Method := "", Token := "", Header := [], Body := none,
    ctx := none, Result := false, Error := false }

/-- The method `Post` of `resty.Request`: the request is executed with method
POST and the given target URL. -/
def Request.Post (r : Request) (c : Client) (url : String) : Outcome :=
  c.Execute { r with Method := "POST", URL := url }

/-- The function `injectTracingHeaders` of `client.go`. `GlobalTracer` is the
value of `opentracing.GlobalTracer()`. -/
def injectTracingHeaders (GlobalTracer : Tracer) (ctx : Context) (req : Request) :
    Request :=
  match ctx.span with
  | none => req
  | some span =>
    let tracer : Tracer :=
      match ctx.tracer with
      | some t => t
      | none => GlobalTracer
    let injected := tracer.Inject span.Context req.Header
    let req : Request := { req with Header := injected.1 }
    match injected.2 with
    | some _ => req
    | none => req

/-- The anonymous struct type of the field `Config` of `GoSepehr`. -/
structure Config where
  GetTokenEndpoint : String
  AdviceEndpoint : String

/-- The Gateway Client `GoSepehr`. -/
structure GoSepehr where
  basePath : String
  restyClient : Client
  Config : Config

/-- The method `GetRequest` of `client.go`. -/
def GoSepehr.GetRequest (g : GoSepehr) (GlobalTracer : Tracer) (ctx : Context) :
    Request :=
  injectTracingHeaders GlobalTracer ctx ((g.restyClient.R.SetContext ctx).SetError)

/-- The method `GetRequestWithBearerAuthNoCache` of `client.go`. -/
def GoSepehr.GetRequestWithBearerAuthNoCache (g : GoSepehr) (GlobalTracer : Tracer)
    (ctx : Context) (token : String) : Request :=
  (((g.GetRequest GlobalTracer ctx).SetAuthToken token).SetHeader
    "Content-Type" "application/json").SetHeader "Cache-Control" "no-cache"

/-- The method `GetRequestWithBearerAuth` of `client.go`. -/
def GoSepehr.GetRequestWithBearerAuth (g : GoSepehr) (GlobalTracer : Tracer)
    (ctx : Context) (token : String) : Request :=
  ((g.GetRequest GlobalTracer ctx).SetAuthToken token).SetHeader
    "Content-Type" "application/json"

/-- The method `GetRequestNormal` of `client.go`. -/
def GoSepehr.GetRequestNormal (g : GoSepehr) (GlobalTracer : Tracer) (ctx : Context) :
    Request :=
  (g.GetRequest GlobalTracer ctx).SetHeader "Content-Type" "application/json"

/-- The function `NewClient` of `client.go`. `New` is the value of `resty.New()`;
an option mutates the client it is given. -/
def NewClient (New : Client) (basePath : String)
    (options : List (GoSepehr → GoSepehr)) : GoSepehr :=
  let c : GoSepehr :=
    { basePath := TrimRight basePath urlSeparator
      restyClient := New
      Config := { GetTokenEndpoint := "", AdviceEndpoint := "" } }
  let c := { c with Config.GetTokenEndpoint := makeURL ["V1", "PeymentApi", "GetToken"] }
  let c := { c with Config.AdviceEndpoint := makeURL ["V1", "PeymentApi", "Advice"] }
  options.foldl (fun c option => option c) c

/-- Modelled from the spec: the payload `GetTokenRequest` is declared outside
`client.go`; the spec treats it as an opaque serializable value. -/
structure GetTokenRequest where
  payload : String
  deriving DecidableEq, Repr

/-- Modelled from the spec: the payload `GetTokenResponse` is declared outside
`client.go`; the spec treats it as an opaque deserialized value. -/
structure GetTokenResponse where
  payload : String
  deriving DecidableEq, Repr

/-- Modelled from the spec: the payload `AdviceRequest` is declared outside
`client.go`; the spec treats it as an opaque serializable value. -/
structure AdviceRequest where
  payload : String
  deriving DecidableEq, Repr

/-- Modelled from the spec: the payload `AdviceResponse` is declared outside
`client.go`; the spec treats it as an opaque deserialized value. -/
structure AdviceResponse where
  payload : String
  deriving DecidableEq, Repr

/-- The method `GetToken` of `client.go`: the response (`none` is nil) and the
error (`none` is nil). -/
def GoSepehr.GetToken (g : GoSepehr) (ParseAPIErrType : Option GoError → APIErrType)
    (GlobalTracer : Tracer) (ctx : Context) (req : GetTokenRequest) :
    Option GetTokenResponse × Option APIError :=
  let out := (((g.GetRequestNormal GlobalTracer ctx).SetBody req.payload).SetResult).Post
    g.restyClient (g.basePath ++ "/" ++ g.Config.GetTokenEndpoint)
  match checkForError ParseAPIErrType out.response out.err "error getting token" with
  | some err => (none, some err)
  | none => (some ⟨out.result⟩, none)

/-- The method `Advice` of `client.go`: the response (`none` is nil) and the error
(`none` is nil). -/
def GoSepehr.Advice (g : GoSepehr) (ParseAPIErrType : Option GoError → APIErrType)
    (GlobalTracer : Tracer) (ctx : Context) (req : AdviceRequest) :
    Option AdviceResponse × Option APIError :=
  let out := (((g.GetRequestNormal GlobalTracer ctx).SetBody req.payload).SetResult).Post
    g.restyClient (g.basePath ++ "/" ++ g.Config.AdviceEndpoint)
  match checkForError ParseAPIErrType out.response out.err "error getting advice" with
  | some err => (none, some err)
  | none => (some ⟨out.result⟩, none)

/-! ## Auxiliary facts -/

/-- The characters of `urlSeparator`. -/
theorem urlSeparator_data : urlSeparator.data = ['/'] := rfl

/-- Trailing copies of a dropped element do not change `rdropWhile`. -/
theorem rdropWhile_append_replicate {α : Type} (p : α → Bool) (l : List α) (a : α)
    (ha : p a = true) (n : Nat) :
    (l ++ List.replicate n a).rdropWhile p = l.rdropWhile p := by
  induction n with
  | zero => simp
  | succ n ih =>
    rw [List.replicate_succ', ← List.append_assoc, List.rdropWhile_concat_pos _ _ _ ha, ih]

/-- The last element that `rdropWhile` keeps fails the predicate. -/
theorem rdropWhile_getLast? {α : Type} (p : α → Bool) (l : List α) (a : α)
    (h : (l.rdropWhile p).getLast? = some a) : p a = false := by
  have hne : l.rdropWhile p ≠ [] := by
    intro h0
    rw [h0] at h
    cases h
  have hlast := List.rdropWhile_last_not p l hne
  rw [List.getLast?_eq_getLast _ hne] at h
  cases h
  simpa using hlast

/-- What `rdropWhile` removes for the predicate "equals `a`" is copies of `a`. -/
theorem rdropWhile_eq_append_replicate {α : Type} [DecidableEq α] (a : α) (l : List α) :
    ∃ k, l = l.rdropWhile (fun c => decide (c ∈ [a])) ++ List.replicate k a := by
  induction l using List.reverseRecOn with
  | nil => exact ⟨0, by simp⟩
  | append_singleton l x ih =>
    by_cases hx : x = a
    · obtain ⟨k, hk⟩ := ih
      refine ⟨k + 1, ?_⟩
      rw [List.rdropWhile_concat_pos _ _ _ (by simp [hx]), List.replicate_succ',
        ← List.append_assoc, ← hk, hx]
    · refine ⟨0, ?_⟩
      rw [List.rdropWhile_concat_neg _ _ _ (by simp [hx])]
      simp

/-- A list whose last element fails the predicate is left alone by `rdropWhile`. -/
theorem rdropWhile_eq_self {α : Type} (p : α → Bool) (l : List α)
    (h : ∀ a, l.getLast? = some a → p a = false) : l.rdropWhile p = l := by
  rw [List.rdropWhile_eq_self_iff]
  intro hl
  have := h (l.getLast hl) (List.getLast?_eq_getLast _ hl)
  simp [this]

/-- The characters of a trimmed string. -/
theorem TrimRight_data (s cutset : String) :
    (TrimRight s cutset).data = s.data.rdropWhile (fun c => decide (c ∈ cutset.data)) :=
  rfl

/-- When `checkForError` returns a nil error. -/
theorem checkForError_eq_none_iff (ParseAPIErrType : Option GoError → APIErrType)
    (resp : Option Response) (err : Option GoError) (m : String) :
    checkForError ParseAPIErrType resp err m = none
      ↔ err = none ∧ ∃ r, resp = some r ∧ r.IsError = false := by
  cases err with
  | some e => simp [checkForError]
  | none =>
    cases resp with
    | none => simp [checkForError]
    | some r =>
      by_cases hE : r.IsError = true
      · simp [checkForError, hE]
      · simp [checkForError, hE]

/-- The function `injectTracingHeaders` changes at most the headers. -/
theorem injectTracingHeaders_eq_with_header (GlobalTracer : Tracer) (ctx : Context)
    (req : Request) :
    ∃ h : Header, injectTracingHeaders GlobalTracer ctx req = { req with Header := h } := by
  unfold injectTracingHeaders
  cases ctx.span with
  | none => exact ⟨req.Header, rfl⟩
  | some span =>
    cases ctx.tracer with
    | none =>
      refine ⟨(GlobalTracer.Inject span.Context req.Header).1, ?_⟩
      cases hI : (GlobalTracer.Inject span.Context req.Header).2 <;> simp [hI]
    | some t =>
      refine ⟨(t.Inject span.Context req.Header).1, ?_⟩
      cases hI : (t.Inject span.Context req.Header).2 <;> simp [hI]

/-- The request that `GetRequestNormal` builds: bound to the context, armed with
the error decode target, no body, no result target yet, JSON content type. -/
theorem GetRequestNormal_fields (g : GoSepehr) (GlobalTracer : Tracer) (ctx : Context) :
    (g.GetRequestNormal GlobalTracer ctx).ctx = some ctx
    ∧ (g.GetRequestNormal GlobalTracer ctx).Error = true
    ∧ (g.GetRequestNormal GlobalTracer ctx).Token = ""
    ∧ ("Content-Type", ["application/json"]) ∈ (g.GetRequestNormal GlobalTracer ctx).Header := by
  obtain ⟨h, hh⟩ := injectTracingHeaders_eq_with_header GlobalTracer ctx
    ((g.restyClient.R.SetContext ctx).SetError)
  have hk : CanonicalMIMEHeaderKey "Content-Type" = "Content-Type" := by decide
  simp only [GoSepehr.GetRequestNormal, GoSepehr.GetRequest, hh, Request.SetHeader,
    Header.Set, hk]
  exact ⟨rfl, rfl, rfl, List.mem_cons_self _ _⟩

/-! ## The error model -/

/-- C1: a non-nil transport error `e` gives, for every response and every context
message `m`, an `APIError` with code 0 and message `m ++ ": " ++ e.Error()`; the
context message is a prefix of that message, and the response is never looked
at. -/
theorem checkForError_transport_error (ParseAPIErrType : Option GoError → APIErrType)
    (resp : Option Response) (e : GoError) (m : String) :
    checkForError ParseAPIErrType resp (some e) m
        = some { Code := 0, Message := m ++ ": " ++ e.Error,
                 ErrType := ParseAPIErrType (some e) }
      ∧ m.data <+: (m ++ ": " ++ e.Error).data
      ∧ checkForError ParseAPIErrType resp (some e) m
          = checkForError ParseAPIErrType none (some e) m := by
  refine ⟨rfl, ?_, rfl⟩
  simp [String.data_append, List.append_assoc]

/-- C2: with no transport error, an error status and a decoded error payload that
is not empty, the code is the status code and the message is the status line,
": " and the payload's text, whatever the raw body is. -/
theorem checkForError_structured (ParseAPIErrType : Option GoError → APIErrType)
    (r : Response) (e : HTTPErrorResponse) (m : String)
    (hErr : r.IsError = true) (hPayload : r.Error = some e)
    (hNotEmpty : e.NotEmpty = true) :
    checkForError ParseAPIErrType (some r) none m
      = some { Code := r.StatusCode, Message := r.Status ++ ": " ++ e.String,
               ErrType := ParseAPIErrType none } := by
  simp [checkForError, hErr, hPayload, hNotEmpty, Sprintf2]

/-- Witness of C2: a 400 response with a populated payload and a raw body. -/
theorem checkForError_structured_witness :
    checkForError (fun _ => APIErrType.Unknown)
        (some ⟨"400 Bad Request", 400, some "raw", some ⟨true, "invalid_request"⟩⟩)
        none "error getting token"
      = some { Code := 400, Message := "400 Bad Request" ++ ": " ++ "invalid_request",
               ErrType := APIErrType.Unknown } :=
  checkForError_structured (fun _ => APIErrType.Unknown)
    ⟨"400 Bad Request", 400, some "raw", some ⟨true, "invalid_request"⟩⟩
    ⟨true, "invalid_request"⟩ "error getting token" (by decide) rfl rfl

/-- C3: with no transport error, an error status, an empty or absent decoded error
payload and a raw body of at least one byte, the code is the status code and the
message is the status line, ": " and the raw body as text. -/
theorem checkForError_raw_body (ParseAPIErrType : Option GoError → APIErrType)
    (r : Response) (body m : String)
    (hErr : r.IsError = true)
    (hPayload : ∀ e, r.Error = some e → e.NotEmpty = false)
    (hBody : r.Body = some body) (_hNonEmpty : body ≠ "") :
    checkForError ParseAPIErrType (some r) none m
      = some { Code := r.StatusCode, Message := r.Status ++ ": " ++ body,
               ErrType := ParseAPIErrType none } := by
  cases hE : r.Error with
  | none => simp [checkForError, hErr, hE, hBody, Sprintf2]
  | some e =>
    have hN := hPayload e hE
    simp [checkForError, hErr, hE, hBody, hN, Sprintf2]

/-- Witness of C3: status "502 Bad Gateway" with raw body "gateway down" and no
structured error gives code 502 and message "502 Bad Gateway: gateway down". -/
theorem checkForError_raw_body_witness :
    checkForError (fun _ => APIErrType.Unknown)
        (some ⟨"502 Bad Gateway", 502, some "gateway down", none⟩) none "error getting token"
      = some { Code := 502, Message := "502 Bad Gateway: gateway down",
               ErrType := APIErrType.Unknown } :=
  checkForError_raw_body (fun _ => APIErrType.Unknown)
    ⟨"502 Bad Gateway", 502, some "gateway down", none⟩ "gateway down"
    "error getting token" (by decide) (by intro e h; cases h) rfl (by decide)

/-- C4, the claim refuted: no `ParseAPIErrType` makes `checkForError` give the kind
`ClientError` to an HTTP 404 response and the kind `ServerError` to an HTTP 502
response. -/
theorem checkForError_kind_not_from_status :
    ¬ ∃ ParseAPIErrType : Option GoError → APIErrType,
        (checkForError ParseAPIErrType
            (some ⟨"404 Not Found", 404, some "missing", none⟩) none
            "error getting token").map APIError.ErrType = some APIErrType.ClientError
        ∧ (checkForError ParseAPIErrType
            (some ⟨"502 Bad Gateway", 502, some "gateway down", none⟩) none
            "error getting token").map APIError.ErrType = some APIErrType.ServerError := by
  rintro ⟨parse, h404, h502⟩
  have h1 : parse none = APIErrType.ClientError := by
    simpa [checkForError, Response.IsError] using h404
  have h2 : parse none = APIErrType.ServerError := by
    simpa [checkForError, Response.IsError] using h502
  rw [h1] at h2
  cases h2

/-- C4, amended: the kind of every error that `checkForError` returns is
`ParseAPIErrType` applied to the transport error; the response and its status code
play no part in it. -/
theorem checkForError_kind (ParseAPIErrType : Option GoError → APIErrType)
    (resp : Option Response) (err : Option GoError) (m : String) (a : APIError)
    (h : checkForError ParseAPIErrType resp err m = some a) :
    a.ErrType = ParseAPIErrType err := by
  unfold checkForError at h
  cases err with
  | some e =>
    simp only [Option.some.injEq] at h
    rw [← h]
  | none =>
    cases resp with
    | none =>
      simp only [Option.some.injEq] at h
      rw [← h]
    | some r =>
      by_cases hE : r.IsError = true
      · simp only [hE, if_true, Option.some.injEq] at h
        rw [← h]
      · simp [hE] at h

/-- Witness of C4, amended: an HTTP 502 response gets the kind that
`ParseAPIErrType` gives to a nil error. -/
theorem checkForError_kind_witness :
    checkForError (fun _ => APIErrType.Unknown)
        (some ⟨"502 Bad Gateway", 502, some "gateway down", none⟩) none
        "error getting token"
      = some ⟨502, "502 Bad Gateway: gateway down", APIErrType.Unknown⟩
    ∧ (⟨502, "502 Bad Gateway: gateway down", APIErrType.Unknown⟩ : APIError).ErrType
        = (fun _ => APIErrType.Unknown) (none : Option GoError) :=
  ⟨by decide,
   checkForError_kind (fun _ => APIErrType.Unknown)
    (some ⟨"502 Bad Gateway", 502, some "gateway down", none⟩) none
    "error getting token" ⟨502, "502 Bad Gateway: gateway down", APIErrType.Unknown⟩
    (by decide)⟩

/-- C6: with no transport error and no response, every context message gives code
0 and the message "empty response", in which the context message has no part; the
transport-error branch never produces this message, so the two branches stay
apart. -/
theorem checkForError_empty_response (ParseAPIErrType : Option GoError → APIErrType)
    (m : String) :
    checkForError ParseAPIErrType none none m
        = some { Code := 0, Message := "empty response",
                 ErrType := ParseAPIErrType none }
      ∧ ∀ (e : GoError) (resp : Option Response),
          (checkForError ParseAPIErrType resp (some e) m).map APIError.Message
            ≠ (checkForError ParseAPIErrType none none m).map APIError.Message := by
  refine ⟨rfl, ?_⟩
  intro e resp h
  have hmsg : m ++ ": " ++ e.Error = "empty response" := by
    simpa [checkForError, Wrap] using h
  have hin : ':' ∈ (m ++ ": " ++ e.Error).data := by
    simp [String.data_append]
  rw [hmsg] at hin
  revert hin
  decide

/-- C7, the code at the failing input: an error status with no structured error
and a non-nil body of zero bytes gives the status line followed by ": ", while the
same response with a nil body gives the status line alone. -/
theorem checkForError_empty_body_suffix :
    ∀ ParseAPIErrType : Option GoError → APIErrType,
      checkForError ParseAPIErrType
          (some ⟨"502 Bad Gateway", 502, some "", none⟩) none "error getting token"
        = some { Code := 502, Message := "502 Bad Gateway: ",
                 ErrType := ParseAPIErrType none }
      ∧ checkForError ParseAPIErrType
          (some ⟨"502 Bad Gateway", 502, none, none⟩) none "error getting token"
        = some { Code := 502, Message := "502 Bad Gateway",
                 ErrType := ParseAPIErrType none } := by
  intro parse
  constructor <;> simp [checkForError, Response.IsError, Sprintf2]

/-! ## The business operations -/

/-- C5: `checkForError` returns a nil error exactly when the transport error is nil,
the response exists and its status is not an error status. `GetToken` and `Advice`
execute one POST request, fixed before the transport is chosen, that carries the
payload as its body, has the result and the error decode targets set, is bound to
the context and has the JSON content type; when the outcome of that request is a
success they return the value decoded into the result target with a nil error, and
otherwise they return a nil response with the error of `checkForError`. -/
theorem checkForError_nil_iff_success (ParseAPIErrType : Option GoError → APIErrType)
    (GlobalTracer : Tracer) (g : GoSepehr) (ctx : Context)
    (treq : GetTokenRequest) (areq : AdviceRequest)
    (resp : Option Response) (err : Option GoError) (m : String) :
    (checkForError ParseAPIErrType resp err m = none
      ↔ err = none ∧ ∃ r, resp = some r ∧ r.IsError = false)
    ∧ (∃ r : Request,
        r.URL = g.basePath ++ "/" ++ g.Config.GetTokenEndpoint ∧ r.Method = "POST"
        ∧ r.Body = some treq.payload ∧ r.Result = true ∧ r.Error = true
        ∧ r.ctx = some ctx ∧ r.Token = ""
        ∧ ("Content-Type", ["application/json"]) ∈ r.Header
        ∧ ∀ c : Client,
            ((c.Execute r).err = none
                ∧ (∃ x, (c.Execute r).response = some x ∧ x.IsError = false) →
              GoSepehr.GetToken { g with restyClient := c } ParseAPIErrType GlobalTracer
                  ctx treq
                = (some ⟨(c.Execute r).result⟩, none))
            ∧ (¬ ((c.Execute r).err = none
                ∧ ∃ x, (c.Execute r).response = some x ∧ x.IsError = false) →
              ∃ e, checkForError ParseAPIErrType (c.Execute r).response (c.Execute r).err
                      "error getting token" = some e
                ∧ GoSepehr.GetToken { g with restyClient := c } ParseAPIErrType
                      GlobalTracer ctx treq
                    = (none, some e)))
    ∧ (∃ r : Request,
        r.URL = g.basePath ++ "/" ++ g.Config.AdviceEndpoint ∧ r.Method = "POST"
        ∧ r.Body = some areq.payload ∧ r.Result = true ∧ r.Error = true
        ∧ r.ctx = some ctx ∧ r.Token = ""
        ∧ ("Content-Type", ["application/json"]) ∈ r.Header
        ∧ ∀ c : Client,
            ((c.Execute r).err = none
                ∧ (∃ x, (c.Execute r).response = some x ∧ x.IsError = false) →
              GoSepehr.Advice { g with restyClient := c } ParseAPIErrType GlobalTracer
                  ctx areq
                = (some ⟨(c.Execute r).result⟩, none))
            ∧ (¬ ((c.Execute r).err = none
                ∧ ∃ x, (c.Execute r).response = some x ∧ x.IsError = false) →
              ∃ e, checkForError ParseAPIErrType (c.Execute r).response (c.Execute r).err
                      "error getting advice" = some e
                ∧ GoSepehr.Advice { g with restyClient := c } ParseAPIErrType
                      GlobalTracer ctx areq
                    = (none, some e))) := by
  obtain ⟨hctx, herr, htok, hhdr⟩ := GetRequestNormal_fields g GlobalTracer ctx
  refine ⟨checkForError_eq_none_iff _ _ _ _, ?_, ?_⟩
  · let r₀ : Request :=
      { ((g.GetRequestNormal GlobalTracer ctx).SetBody treq.payload).SetResult with
        Method := "POST", URL := g.basePath ++ "/" ++ g.Config.GetTokenEndpoint }
    refine ⟨r₀, rfl, rfl, rfl, rfl, herr, hctx, htok, hhdr, ?_⟩
    intro c
    have hdef : GoSepehr.GetToken { g with restyClient := c } ParseAPIErrType GlobalTracer
          ctx treq
        = (match checkForError ParseAPIErrType (c.Execute r₀).response (c.Execute r₀).err
              "error getting token" with
          | some err => ((none : Option GetTokenResponse), some err)
          | none => (some (GetTokenResponse.mk (c.Execute r₀).result), none)) := rfl
    constructor
    · intro h
      rw [hdef, (checkForError_eq_none_iff ParseAPIErrType _ _ "error getting token").2 h]
    · intro h
      cases hc : checkForError ParseAPIErrType (c.Execute r₀).response (c.Execute r₀).err
          "error getting token" with
      | none => exact absurd ((checkForError_eq_none_iff _ _ _ _).1 hc) h
      | some e =>
        refine ⟨e, rfl, ?_⟩
        rw [hdef, hc]
  · let r₀ : Request :=
      { ((g.GetRequestNormal GlobalTracer ctx).SetBody areq.payload).SetResult with
        Method := "POST", URL := g.basePath ++ "/" ++ g.Config.AdviceEndpoint }
    refine ⟨r₀, rfl, rfl, rfl, rfl, herr, hctx, htok, hhdr, ?_⟩
    intro c
    have hdef : GoSepehr.Advice { g with restyClient := c } ParseAPIErrType GlobalTracer
          ctx areq
        = (match checkForError ParseAPIErrType (c.Execute r₀).response (c.Execute r₀).err
              "error getting advice" with
          | some err => ((none : Option AdviceResponse), some err)
          | none => (some (AdviceResponse.mk (c.Execute r₀).result), none)) := rfl
    constructor
    · intro h
      rw [hdef, (checkForError_eq_none_iff ParseAPIErrType _ _ "error getting advice").2 h]
    · intro h
      cases hc : checkForError ParseAPIErrType (c.Execute r₀).response (c.Execute r₀).err
          "error getting advice" with
      | none => exact absurd ((checkForError_eq_none_iff _ _ _ _).1 hc) h
      | some e =>
        refine ⟨e, rfl, ?_⟩
        rw [hdef, hc]

/-- Witness of C5: a transport that answers 200 OK and decodes "token-1" only into a
request that has its result target set and carries the payload makes `GetToken`
return that response with a nil error. -/
theorem checkForError_nil_iff_success_witness :
    GoSepehr.GetToken
        { NewClient ⟨fun _ => ⟨none, none, ""⟩⟩ "http://gw.example.com/" [] with
          restyClient := ⟨fun r => ⟨some ⟨"200 OK", 200, some "ok", none⟩, none,
            if r.Result && r.Body == some "request" then "token-1" else ""⟩⟩ }
        (fun _ => APIErrType.Unknown) ⟨fun _ h => (h, none)⟩ ⟨none, none⟩ ⟨"request"⟩
      = (some ⟨"token-1"⟩, none) := by
  obtain ⟨r, -, -, hB, hR, -, -, -, -, hAll⟩ :=
    (checkForError_nil_iff_success (fun _ => APIErrType.Unknown) ⟨fun _ h => (h, none)⟩
      (NewClient ⟨fun _ => ⟨none, none, ""⟩⟩ "http://gw.example.com/" [])
      ⟨none, none⟩ ⟨"request"⟩ ⟨"request"⟩ none none "").2.1
  have h := (hAll ⟨fun r => ⟨some ⟨"200 OK", 200, some "ok", none⟩, none,
      if r.Result && r.Body == some "request" then "token-1" else ""⟩⟩).1
    ⟨rfl, ⟨"200 OK", 200, some "ok", none⟩, rfl, by decide⟩
  rw [h]
  simp [hR, hB]

/-- C8: for a client built by `NewClient` with no options, `GetToken` and `Advice`
execute one POST request whose target is the trimmed base path followed by
"/V1/PeymentApi/GetToken" and "/V1/PeymentApi/Advice"; the trimmed base path does
not end with "/", and the base path "http://gw.example.com/" gives the target
"http://gw.example.com/V1/PeymentApi/GetToken". -/
theorem NewClient_endpoint_targets (b : String) (GlobalTracer : Tracer) (ctx : Context)
    (treq : GetTokenRequest) (areq : AdviceRequest) :
    (∃ r : Request,
        r.URL = TrimRight b "/" ++ "/V1/PeymentApi/GetToken" ∧ r.Method = "POST"
        ∧ ∀ (New : Client) (ParseAPIErrType : Option GoError → APIErrType),
            (NewClient New b []).GetToken ParseAPIErrType GlobalTracer ctx treq
              = match checkForError ParseAPIErrType (New.Execute r).response
                    (New.Execute r).err "error getting token" with
                | some err => (none, some err)
                | none => (some ⟨(New.Execute r).result⟩, none))
    ∧ (∃ r : Request,
        r.URL = TrimRight b "/" ++ "/V1/PeymentApi/Advice" ∧ r.Method = "POST"
        ∧ ∀ (New : Client) (ParseAPIErrType : Option GoError → APIErrType),
            (NewClient New b []).Advice ParseAPIErrType GlobalTracer ctx areq
              = match checkForError ParseAPIErrType (New.Execute r).response
                    (New.Execute r).err "error getting advice" with
                | some err => (none, some err)
                | none => (some ⟨(New.Execute r).result⟩, none))
    ∧ (TrimRight b "/").data.getLast? ≠ some '/'
    ∧ TrimRight "http://gw.example.com/" "/" ++ "/V1/PeymentApi/GetToken"
        = "http://gw.example.com/V1/PeymentApi/GetToken" := by
  let g₀ : GoSepehr := NewClient ⟨fun _ => ⟨none, none, ""⟩⟩ b []
  refine ⟨⟨{ ((g₀.GetRequestNormal GlobalTracer ctx).SetBody treq.payload).SetResult with
              Method := "POST", URL := g₀.basePath ++ "/" ++ g₀.Config.GetTokenEndpoint },
            ?_, ?_, fun New parse => rfl⟩,
          ⟨{ ((g₀.GetRequestNormal GlobalTracer ctx).SetBody areq.payload).SetResult with
              Method := "POST", URL := g₀.basePath ++ "/" ++ g₀.Config.AdviceEndpoint },
            ?_, ?_, fun New parse => rfl⟩, ?_, by decide⟩
  · show TrimRight b urlSeparator ++ "/" ++ makeURL ["V1", "PeymentApi", "GetToken"] = _
    have h : makeURL ["V1", "PeymentApi", "GetToken"] = "V1/PeymentApi/GetToken" := by decide
    rw [h]
    apply String.ext
    simp [String.data_append, urlSeparator]
  · rfl
  · show TrimRight b urlSeparator ++ "/" ++ makeURL ["V1", "PeymentApi", "Advice"] = _
    have h : makeURL ["V1", "PeymentApi", "Advice"] = "V1/PeymentApi/Advice" := by decide
    rw [h]
    apply String.ext
    simp [String.data_append, urlSeparator]
  · rfl
  · intro h
    have := rdropWhile_getLast? _ _ _ h
    revert this
    decide

/-- C9: the base path that `NewClient` stores for `p` followed by `N` separators
does not end with "/", is the input without some trailing "/" characters, is the
base path stored for `p` alone, equals `p` when `p` does not end with "/", and is
left unchanged when it is normalized again. -/
theorem NewClient_basePath_normalized (New : Client) (p : String) (N : Nat) :
    let input := p ++ String.mk (List.replicate N '/')
    let s := (NewClient New input []).basePath
    s.data.getLast? ≠ some '/'
    ∧ (∃ k, input = s ++ String.mk (List.replicate k '/'))
    ∧ s = (NewClient New p []).basePath
    ∧ (p.data.getLast? ≠ some '/' → s = p)
    ∧ (NewClient New s []).basePath = s := by
  intro input s
  have hs : s = TrimRight input urlSeparator := rfl
  have hp : (NewClient New p []).basePath = TrimRight p urlSeparator := rfl
  have hsp : s = TrimRight p urlSeparator := by
    rw [hs]
    apply String.ext
    rw [TrimRight_data, TrimRight_data, urlSeparator_data]
    show List.rdropWhile _ (p.data ++ List.replicate N '/') = _
    exact rdropWhile_append_replicate _ _ _ (by decide) _
  refine ⟨?_, ?_, ?_, ?_, ?_⟩
  · intro h
    rw [hs, TrimRight_data, urlSeparator_data] at h
    have := rdropWhile_getLast? _ _ _ h
    revert this
    decide
  · obtain ⟨k, hk⟩ := rdropWhile_eq_append_replicate '/' input.data
    refine ⟨k, ?_⟩
    have hdata : (s ++ String.mk (List.replicate k '/')).data = input.data := by
      rw [String.data_append, hs, TrimRight_data, urlSeparator_data]
      exact hk.symm
    exact (String.ext hdata).symm
  · rw [hsp, hp]
  · intro hlast
    rw [hsp]
    apply String.ext
    rw [TrimRight_data, urlSeparator_data]
    apply rdropWhile_eq_self
    intro a ha
    have : a ≠ '/' := by
      intro h
      rw [h] at ha
      exact hlast ha
    simp [this]
  · show TrimRight s urlSeparator = s
    rw [hs]
    apply String.ext
    rw [TrimRight_data, TrimRight_data]
    exact List.rdropWhile_idempotent _ _

/-- Witness of C9: the base path "http://gw.example.com" followed by two
separators. -/
theorem NewClient_basePath_normalized_witness :
    (NewClient ⟨fun _ => ⟨none, none, ""⟩⟩
        ("http://gw.example.com" ++ String.mk (List.replicate 2 '/')) []).basePath
      = "http://gw.example.com" :=
  (NewClient_basePath_normalized ⟨fun _ => ⟨none, none, ""⟩⟩
    "http://gw.example.com" 2).2.2.2.1 (by decide)

/-! ## Tracing propagation -/

/-- C10, the claim refuted: a tracer that writes one header and then fails makes
`injectTracingHeaders` return a request whose headers differ from those it was
given. -/
theorem injectTracingHeaders_failed_inject_keeps_writes :
    let failing : Tracer :=
      ⟨fun _ h => (h.Set "Uber-Trace-Id" "1", some ⟨"baggage not encodable"⟩)⟩
    let noop : Tracer := ⟨fun _ h => (h, none)⟩
    let ctx : Context := ⟨some ⟨⟨[]⟩⟩, some failing⟩
    let req : Request :=
      { URL := "", Method := "", Token := "", Header := [], Body := some "payload",
        ctx := some ctx, Result := false, Error := true }
    (failing.Inject ⟨[]⟩ req.Header).2 = some ⟨"baggage not encodable"⟩
    ∧ (injectTracingHeaders noop ctx req).Header = [("Uber-Trace-Id", ["1"])]
    ∧ (injectTracingHeaders noop ctx req).Header ≠ req.Header := by
  refine ⟨rfl, by decide, by decide⟩

/-- C10, amended: `injectTracingHeaders` returns the request with body, auth token,
bound context, target URL, method and decode targets unchanged; with no span in
the context the request is returned as it was given; with a span the headers are
exactly what `Inject` of the tracer of the context (the global tracer when the
context has none) leaves in the carrier, whether `Inject` fails or not, so the
request is returned as it was given whenever the tracer leaves the carrier as it
found it. -/
theorem injectTracingHeaders_frame (GlobalTracer : Tracer) (ctx : Context)
    (req : Request) :
    let r := injectTracingHeaders GlobalTracer ctx req
    r.Body = req.Body ∧ r.Token = req.Token ∧ r.ctx = req.ctx ∧ r.URL = req.URL
    ∧ r.Method = req.Method ∧ r.Result = req.Result ∧ r.Error = req.Error
    ∧ (ctx.span = none → r = req)
    ∧ (∀ span, ctx.span = some span →
        r = { req with
              Header := ((ctx.tracer.getD GlobalTracer).Inject span.Context req.Header).1 })
    ∧ (∀ span, ctx.span = some span →
        ((ctx.tracer.getD GlobalTracer).Inject span.Context req.Header).1 = req.Header →
        r = req) := by
  intro r
  have hspan : ∀ span, ctx.span = some span →
      r = { req with
            Header := ((ctx.tracer.getD GlobalTracer).Inject span.Context req.Header).1 } := by
    intro span h
    show injectTracingHeaders GlobalTracer ctx req = _
    unfold injectTracingHeaders
    rw [h]
    cases ht : ctx.tracer with
    | none =>
      simp only [Option.getD]
      cases (GlobalTracer.Inject span.Context req.Header).2 <;> rfl
    | some t =>
      simp only [Option.getD]
      cases (t.Inject span.Context req.Header).2 <;> rfl
  have hnone : ctx.span = none → r = req := by
    intro h
    show injectTracingHeaders GlobalTracer ctx req = _
    unfold injectTracingHeaders
    rw [h]
  have hfield : r.Body = req.Body ∧ r.Token = req.Token ∧ r.ctx = req.ctx
      ∧ r.URL = req.URL ∧ r.Method = req.Method ∧ r.Result = req.Result
      ∧ r.Error = req.Error := by
    cases hs : ctx.span with
    | none => rw [hnone hs]; exact ⟨rfl, rfl, rfl, rfl, rfl, rfl, rfl⟩
    | some span => rw [hspan span hs]; exact ⟨rfl, rfl, rfl, rfl, rfl, rfl, rfl⟩
  obtain ⟨h1, h2, h3, h4, h5, h6, h7⟩ := hfield
  refine ⟨h1, h2, h3, h4, h5, h6, h7, hnone, hspan, ?_⟩
  intro span hs hkeep
  rw [hspan span hs, hkeep]

/-- Witness of C10, amended: a context without a span leaves a request with a body,
a token and a header as it was given. -/
theorem injectTracingHeaders_frame_witness :
    injectTracingHeaders ⟨fun _ h => (h.Set "Uber-Trace-Id" "1", none)⟩ ⟨none, none⟩
        { URL := "", Method := "", Token := "secret", Body := some "payload",
          Header := [("Content-Type", ["application/json"])], ctx := none,
          Result := false, Error := true }
      = { URL := "", Method := "", Token := "secret", Body := some "payload",
          Header := [("Content-Type", ["application/json"])], ctx := none,
          Result := false, Error := true } :=
  (injectTracingHeaders_frame ⟨fun _ h => (h.Set "Uber-Trace-Id" "1", none)⟩ ⟨none, none⟩
    { URL := "", Method := "", Token := "secret", Body := some "payload",
      Header := [("Content-Type", ["application/json"])], ctx := none,
      Result := false, Error := true }).2.2.2.2.2.2.2.1 rfl

end gosepehr
